import Mathlib

/-
Verification of the HTTP layer of bytedance/Dolphin (src/api.py).

The file api.py defines a FastAPI application with two routes:
  * POST /process/  (handler process_file_endpoint, lines 51-169)
  * GET  /          (handler root, lines 172-174)

process_file_endpoint is a synchronous handler: it validates the uploaded
extension of the uploaded filename, saves the upload under
temp_uploads/<request_id><ext>,
creates results/<request_id>, calls process_page, then reads either the
markdown output file or the JSON output file and returns its content in the
HTTP response.  Each stage failure is converted to an HTTPException; the
outermost handler re-raises HTTPExceptions and converts any other exception
to HTTPException 500 with a generic detail.

The embedding below models the handler as a pure function from an
environment (the outcomes of the filesystem and model operations it performs)
and the request data (uploaded filename, output_format query value) to the
pair of (the ordered trace of filesystem/model operations attempted, the HTTP
response).  Python exceptions are modelled by the Exc type; HTTPException is
Exc.http, any other exception is Exc.pyExc.  The cleanup in the finally
block (closing the upload stream, deleting the temporary file, lines 152-169)
affects no response and no claim, and is not modelled.
-/

namespace DolphinAPI

/-- Index of the last occurrence of character c in l, or -1 when absent
(mirrors the sep/dot index computation of Python posixpath.splitext). -/
def lastIdxOr (l : List Char) (c : Char) : Int :=
  match (l.enum.filter (fun p => p.2 = c)).getLast? with
  | some p => (p.1 : Int)
  | none => -1

/-- Python os.path.splitext on the character list: split at the last dot of
the final path component, unless every character of that component before the
dot is itself a dot (so ".bashrc" has no extension). -/
def splitextList (l : List Char) : List Char × List Char :=
  let sepIndex := lastIdxOr l '/'
  let dotIndex := lastIdxOr l '.'
  if dotIndex > sepIndex then
    let start := (sepIndex + 1).toNat
    let basePrefix := (l.drop start).take (dotIndex.toNat - start)
    if basePrefix.any (fun ch => ch ≠ '.') then
      (l.take dotIndex.toNat, l.drop dotIndex.toNat)
    else
      (l, [])
  else
    (l, [])

/-- Python os.path.splitext (posixpath, as used on line 72 and line 117). -/
def splitext (s : String) : String × String :=
  let p := splitextList s.data
  (String.mk p.1, String.mk p.2)

/-- ASCII lowercasing of one character (Python str.lower restricted to the
ASCII range, which covers every extension the check of line 74 can accept). -/
def lowerChar (c : Char) : Char :=
  if 65 ≤ c.toNat ∧ c.toNat ≤ 90 then Char.ofNat (c.toNat + 32) else c

/-- Python str.lower as used on line 74 (ASCII range). -/
def strLower (s : String) : String := String.mk (s.data.map lowerChar)

/-- The accepted extensions listed on line 74: .png, .jpg, .jpeg, .bmp, .tiff. -/
def allowedExts : List String := [".png", ".jpg", ".jpeg", ".bmp", ".tiff"]

/-- TEMP_UPLOADS_DIR, line 39. -/
def TEMP_UPLOADS_DIR : String := "temp_uploads"

/-- RESULTS_DIR, line 40. -/
def RESULTS_DIR : String := "results"

/-- Python os.path.join for the two-argument uses in this file: both roots are
relative literals without a trailing separator and the second component is
never absolute, so join is concatenation with one separator. -/
def joinPath (a b : String) : String := a ++ "/" ++ b

/-- upload_file_path of line 79: os.path.join(TEMP_UPLOADS_DIR, request_id + ext). -/
def upload_file_path (requestId ext : String) : String :=
  joinPath TEMP_UPLOADS_DIR (requestId ++ ext)

/-- output_save_dir of line 90: os.path.join(RESULTS_DIR, request_id). -/
def output_save_dir (requestId : String) : String :=
  joinPath RESULTS_DIR requestId

/-- markdown_file_path of lines 117-118: the base name of the unique upload
filename (request_id + ext without its extension) under
output_save_dir/markdown, with suffix .md. -/
def markdown_file_path (requestId ext : String) : String :=
  joinPath (joinPath (output_save_dir requestId) "markdown")
    ((splitext (requestId ++ ext)).1 ++ ".md")

/-- A JSON value, as returned by json.load and by JSONResponse bodies. -/
inductive JsonVal where
  | null : JsonVal
  | bool (b : Bool) : JsonVal
  | num (n : Int) : JsonVal
  | str (s : String) : JsonVal
  | arr (elems : List JsonVal) : JsonVal
  | obj (fields : List (String × JsonVal)) : JsonVal

/-- One filesystem or model operation attempted by the handler, in order. -/
inductive Event where
  | save (path : String) : Event
  | mkdir (path : String) : Event
  | processPage (imagePath saveDir : String) : Event
  | checkExists (path : String) : Event
  | readFile (path : String) : Event

/-- Outcome of the process_page call (lines 100-113): success carries the
returned json_path; FileNotFoundError and any other exception are caught
separately by the handler. -/
inductive PPErr where
  | fileNotFound (msg : String) : PPErr
  | other (msg : String) : PPErr

/-- A Python exception as seen by the outermost try of the handler:
either an HTTPException (status, detail) or any other exception (its str). -/
inductive Exc where
  | http (status : Nat) (detail : String) : Exc
  | pyExc (msg : String) : Exc

/-- The HTTP response of one request: PlainTextResponse (line 128),
JSONResponse (line 142), or the error response FastAPI renders for a raised
HTTPException. -/
inductive Response where
  | plainText (content mediaType : String) : Response
  | jsonContent (v : JsonVal) : Response
  | httpError (status : Nat) (detail : String) : Response

/-- The environment of one request: the request identifier produced by
uuid.uuid4() (line 66) and the outcomes of every external operation the
handler may perform. -/
structure Env where
  requestId : String
  saveUpload : Except String Unit
  makedirs : Except String Unit
  processPageResult : Except PPErr String
  pathExists : String → Bool
  readText : String → Except String String
  readJson : String → Except String JsonVal

/-- Detail string of the 400 raised on line 76. -/
def invalidTypeDetail (ext : String) : String :=
  "Invalid file type. Supported types: PNG, JPG, JPEG, BMP, TIFF. Got: " ++ ext

/-- The str of the TypeError raised by os.path.splitext(None) when the
uploaded file carries no filename (UploadFile.filename is Optional). -/
def pyNoneTypeMsg : String := "expected str, bytes or os.PathLike object, not NoneType"

/-- Lines 115-145: after process_page returned json_path, read either the
markdown output file (lines 116-131) or the JSON output file (lines 133-145)
and build the success response or the HTTPException of that stage. -/
def readStage (env : Env) (ext json_path output_format : String) :
    List Event × Except Exc Response :=
  if output_format = "markdown" then
    let mdPath := markdown_file_path env.requestId ext
    if env.pathExists mdPath then
      match env.readText mdPath with
      | .ok content =>
          ([.checkExists mdPath, .readFile mdPath],
           .ok (.plainText content "text/markdown"))
      | .error e =>
          ([.checkExists mdPath, .readFile mdPath],
           .error (.http 500 ("Failed to read Markdown file: " ++ e)))
    else
      ([.checkExists mdPath],
       .error (.http 404 ("Markdown file not found: " ++ mdPath)))
  else
    if env.pathExists json_path then
      match env.readJson json_path with
      | .ok v =>
          ([.checkExists json_path, .readFile json_path], .ok (.jsonContent v))
      | .error e =>
          ([.checkExists json_path, .readFile json_path],
           .error (.http 500 ("Failed to read or parse JSON results file: " ++ e)))
    else
      ([.checkExists json_path],
       .error (.http 404 ("JSON results file not found: " ++ json_path)))

/-- Lines 98-113: call process_page; FileNotFoundError becomes a 404,
any other exception a 500, success hands json_path to the read stage. -/
def processStage (env : Env) (upPath outDir ext output_format : String) :
    List Event × Except Exc Response :=
  match env.processPageResult with
  | .error (.fileNotFound e) =>
      ([.processPage upPath outDir],
       .error (.http 404 ("File not found during model processing: " ++ e)))
  | .error (.other e) =>
      ([.processPage upPath outDir],
       .error (.http 500 ("Error during DOLPHIN model processing: " ++ e)))
  | .ok json_path =>
      let rest := readStage env ext json_path output_format
      (.processPage upPath outDir :: rest.1, rest.2)

/-- Lines 89-96: create the per-request results directory; a failure becomes
a 500, success continues with the process_page stage. -/
def mkdirStage (env : Env) (upPath ext output_format : String) :
    List Event × Except Exc Response :=
  let outDir := output_save_dir env.requestId
  match env.makedirs with
  | .error e =>
      ([.mkdir outDir],
       .error (.http 500 ("Failed to create output directory: " ++ e)))
  | .ok _ =>
      let rest := processStage env upPath outDir ext output_format
      (.mkdir outDir :: rest.1, rest.2)

/-- Lines 78-87: write the upload to temp_uploads/(request_id)(ext); a failure
becomes a 500, success continues with the mkdir stage. -/
def saveStage (env : Env) (ext output_format : String) :
    List Event × Except Exc Response :=
  let upPath := upload_file_path env.requestId ext
  match env.saveUpload with
  | .error e =>
      ([.save upPath], .error (.http 500 ("Failed to save uploaded file: " ++ e)))
  | .ok _ =>
      let rest := mkdirStage env upPath ext output_format
      (.save upPath :: rest.1, rest.2)

/-- The body of process_file_endpoint (the outer try block, lines 70-145):
the trace of operations attempted, and either a successful Response or the
exception reaching the outermost except clauses.  A missing filename makes
os.path.splitext on line 72 raise a TypeError before any operation. -/
def runBody (env : Env) (filename : Option String) (output_format : String) :
    List Event × Except Exc Response :=
  match filename with
  | none => ([], .error (.pyExc pyNoneTypeMsg))
  | some fname =>
    let file_extension := (splitext fname).2
    if strLower file_extension ∉ allowedExts then
      ([], .error (.http 400 (invalidTypeDetail file_extension)))
    else
      saveStage env file_extension output_format

/-- process_file_endpoint, lines 51-151: run the body; a raised HTTPException
is re-raised unchanged (line 148) and rendered with its own status and detail,
and any other exception becomes HTTPException 500 with a generic detail
(line 151). -/
def process_file_endpoint (env : Env) (filename : Option String)
    (output_format : String) : List Event × Response :=
  match runBody env filename output_format with
  | (evs, .ok r) => (evs, r)
  | (evs, .error (.http s d)) => (evs, .httpError s d)
  | (evs, .error (.pyExc m)) =>
      (evs, .httpError 500 ("An unexpected error occurred: " ++ m))

/-- Declared default of the output_format query parameter, line 54:
Query("json", enum=["json", "markdown"], ...). -/
def output_format_default : String := "json"

/-- Values listed in the enum of the output_format query parameter, line 54. -/
def output_format_enum : List String := ["json", "markdown"]

/-- The complete route table of the FastAPI app: the decorators on lines 51
and 172 register POST /process/ and GET / and nothing else. -/
def appRoutes : List (String × String) :=
  [("POST", "/process/"), ("GET", "/")]

/-- Body returned by the root handler, lines 172-174. -/
def root : JsonVal := .obj [("message", .str "DOLPHIN API is running")]

/-
Concrete environments used by the counterexamples and witnesses below.
-/

/-- Environment of a request in which every external operation succeeds:
process_page returns the JSON results path, both output files exist, and
reading or parsing them succeeds. -/
def envOk : Env :=
  { requestId := "req-1"
    saveUpload := .ok ()
    makedirs := .ok ()
    processPageResult := .ok "results/req-1/recognition_json/page.json"
    pathExists := fun _ => true
    readText := fun _ => .ok "# Title"
    readJson := fun _ => .ok (.str "parsed") }

/-- Environment in which writing the uploaded file fails. -/
def envSaveFail : Env := { envOk with saveUpload := .error "disk full" }

/-- Environment in which the JSON results file exists but fails to parse. -/
def envBadJson : Env :=
  { envOk with readJson := fun _ => .error "Expecting value: line 1 column 1 (char 0)" }

/-
Helper lemmas shared by the theorems below.
-/

/-- String append acts as list append on the underlying character data. -/
lemma data_append (a b : String) : (a ++ b).data = a.data ++ b.data := rfl

/-- The event trace of the full handler is the event trace of its body: the
outermost except clauses only translate the exception into a response. -/
lemma trace_eq (env : Env) (filename : Option String) (output_format : String) :
    (process_file_endpoint env filename output_format).1 =
      (runBody env filename output_format).1 := by
  unfold process_file_endpoint
  rcases h : runBody env filename output_format with ⟨evs, r⟩
  rcases r with e | r
  · rcases e with ⟨s, d⟩ | m <;> simp
  · simp

/-- Whatever the outcome of the write, the first operation of the save stage
is the attempt to save the upload under its request-derived path. -/
lemma saveStage_head (env : Env) (ext output_format : String) :
    (saveStage env ext output_format).1.head? =
      some (.save (upload_file_path env.requestId ext)) := by
  unfold saveStage
  rcases h : env.saveUpload with e | u <;> simp [h]

/-
Claims.
-/

/-- Claim C1, counterexample: on a valid submission whose every stage
succeeds, the response of POST /process/ is the parsed JSON result content
itself, produced only after the save, mkdir, process_page and read operations
all ran inside the request.  This refutes the claim that the response is an
immediate task-identifier body and that results are never returned on the
submission response: there is no task identifier and the result is the
response. -/
theorem c1_counterexample :
    process_file_endpoint envOk (some "doc.png") "json" =
      ([.save "temp_uploads/req-1.png", .mkdir "results/req-1",
        .processPage "temp_uploads/req-1.png" "results/req-1",
        .checkExists "results/req-1/recognition_json/page.json",
        .readFile "results/req-1/recognition_json/page.json"],
       .jsonContent (.str "parsed")) := rfl

/-- Claim C1, amended: for every submission that passes the extension check
and whose stages all succeed, the endpoint processes the file synchronously
within the request and returns the outcome itself in the HTTP response — the
markdown text for output_format markdown, the parsed JSON value otherwise;
no task identifier is issued and no background unit of work exists. -/
theorem c1_synchronous_result (env : Env) (fname output_format jp mdText : String)
    (v : JsonVal)
    (hext : strLower (splitext fname).2 ∈ allowedExts)
    (hsave : env.saveUpload = .ok ())
    (hmk : env.makedirs = .ok ())
    (hpp : env.processPageResult = .ok jp)
    (hjx : env.pathExists jp = true)
    (hjr : env.readJson jp = .ok v)
    (hmx : env.pathExists (markdown_file_path env.requestId (splitext fname).2) = true)
    (hmr : env.readText (markdown_file_path env.requestId (splitext fname).2) = .ok mdText) :
    (process_file_endpoint env (some fname) output_format).2 =
      if output_format = "markdown" then .plainText mdText "text/markdown"
      else .jsonContent v := by
  by_cases h : output_format = "markdown" <;>
    simp [process_file_endpoint, runBody, saveStage, mkdirStage, processStage,
      readStage, hext, hsave, hmk, hpp, hjx, hjr, hmx, hmr, h]

/-- Claim C1, witness for the amended theorem at a concrete input. -/
theorem c1_witness :
    (process_file_endpoint envOk (some "doc.png") "json").2 =
      if "json" = "markdown" then Response.plainText "# Title" "text/markdown"
      else Response.jsonContent (JsonVal.str "parsed") :=
  c1_synchronous_result envOk "doc.png" "json"
    "results/req-1/recognition_json/page.json" "# Title" (JsonVal.str "parsed")
    (by decide) rfl rfl rfl rfl rfl rfl rfl

/-- Claim C3, counterexample: when saving the uploaded file fails, the
submission response itself is the HTTP 500 error of that stage.  This refutes
the claim that later-stage failures are never observable through the
submission response and are observable only via a status-query path. -/
theorem c3_counterexample :
    process_file_endpoint envSaveFail (some "doc.png") "json" =
      ([.save "temp_uploads/req-1.png"],
       .httpError 500 "Failed to save uploaded file: disk full") := rfl

/-- Claim C3, amended: a failure of a later processing stage is observable
directly through the submission response — a failure while saving the input
yields HTTP 500 with detail Failed to save uploaded file followed by the
cause, on the very request that submitted the file; no separate status-query
path exists. -/
theorem c3_stage_failure_observable (env : Env) (fname output_format e : String)
    (hext : strLower (splitext fname).2 ∈ allowedExts)
    (hsave : env.saveUpload = .error e) :
    (process_file_endpoint env (some fname) output_format).2 =
      .httpError 500 ("Failed to save uploaded file: " ++ e) := by
  simp [process_file_endpoint, runBody, saveStage, hext, hsave]

/-- Claim C3, witness for the amended theorem at a concrete input. -/
theorem c3_witness :
    (process_file_endpoint envSaveFail (some "doc.png") "json").2 =
      .httpError 500 ("Failed to save uploaded file: " ++ "disk full") :=
  c3_stage_failure_observable envSaveFail "doc.png" "json" "disk full" (by decide) rfl

/-- Claim C4, counterexample: the route table of the app contains no
GET /task_status/... route at all — neither the literal path with the
task_id path parameter nor any path starting with /task_status.  This
refutes the claim that a status-query operation exists. -/
theorem c4_counterexample :
    ("GET", "/task_status/\x7btask_id\x7d") ∉ appRoutes ∧
      appRoutes.all (fun r => !(List.isPrefixOf "/task_status".data r.2.data)) = true := by
  decide

/-- Claim C4, amended: the service exposes no status-query endpoint; its only
routes are POST /process/ and GET /, and the GET / handler returns a body
whose message field says the API is running. -/
theorem c4_no_status_route :
    appRoutes = [("POST", "/process/"), ("GET", "/")] ∧
      root = JsonVal.obj [("message", JsonVal.str "DOLPHIN API is running")] :=
  ⟨rfl, rfl⟩

/-- Claim C5, counterexample: with json output and a results file that fails
to parse, the request ends in HTTP 500 naming the parse failure — not in a
completed outcome with the malformed file silently skipped.  This refutes the
silent-skip policy: the handler reads exactly one JSON file and a parse
failure fails the whole request. -/
theorem c5_counterexample :
    process_file_endpoint envBadJson (some "doc.png") "json" =
      ([.save "temp_uploads/req-1.png", .mkdir "results/req-1",
        .processPage "temp_uploads/req-1.png" "results/req-1",
        .checkExists "results/req-1/recognition_json/page.json",
        .readFile "results/req-1/recognition_json/page.json"],
       .httpError 500
         "Failed to read or parse JSON results file: Expecting value: line 1 column 1 (char 0)") := rfl

/-- Claim C5, amended: for json output the handler reads the single JSON
results file returned by process_page; when that file fails to parse the
request fails with HTTP 500 whose detail names the parse error — a malformed
file turns the outcome into a failure rather than being skipped. -/
theorem c5_parse_failure_is_error (env : Env) (fname output_format jp e : String)
    (hext : strLower (splitext fname).2 ∈ allowedExts)
    (hsave : env.saveUpload = .ok ())
    (hmk : env.makedirs = .ok ())
    (hpp : env.processPageResult = .ok jp)
    (hof : output_format ≠ "markdown")
    (hx : env.pathExists jp = true)
    (hr : env.readJson jp = .error e) :
    (process_file_endpoint env (some fname) output_format).2 =
      .httpError 500 ("Failed to read or parse JSON results file: " ++ e) := by
  simp [process_file_endpoint, runBody, saveStage, mkdirStage, processStage,
    readStage, hext, hsave, hmk, hpp, hof, hx, hr]

/-- Claim C5, witness for the amended theorem at a concrete input. -/
theorem c5_witness :
    (process_file_endpoint envBadJson (some "doc.png") "json").2 =
      .httpError 500 ("Failed to read or parse JSON results file: " ++
        "Expecting value: line 1 column 1 (char 0)") :=
  c5_parse_failure_is_error envBadJson "doc.png" "json"
    "results/req-1/recognition_json/page.json"
    "Expecting value: line 1 column 1 (char 0)"
    (by decide) rfl rfl rfl (by decide) rfl rfl

/-- Claim C6, counterexample: the declared default of the output_format
query parameter is not markdown.  This refutes the claim that an omitted
output_format defaults to markdown. -/
theorem c6_counterexample : output_format_default ≠ "markdown" := by decide

/-- Claim C6, amended: when a submission omits the output_format parameter
the format defaults to json, and the values declared for the parameter are
exactly json and markdown (line 54). -/
theorem c6_default_json :
    output_format_default = "json" ∧ output_format_enum = ["json", "markdown"] :=
  ⟨rfl, rfl⟩

/-- Claim C7, counterexample: a submission with output_format xml is not
rejected — the handler falls into the JSON branch, accesses the results file
(the readFile event on the JSON path is in the trace) and returns the parsed
content with no invalid-format failure.  This refutes the claim that a format
outside markdown and json is rejected before any result file access. -/
theorem c7_counterexample :
    process_file_endpoint envOk (some "doc.png") "xml" =
      ([.save "temp_uploads/req-1.png", .mkdir "results/req-1",
        .processPage "temp_uploads/req-1.png" "results/req-1",
        .checkExists "results/req-1/recognition_json/page.json",
        .readFile "results/req-1/recognition_json/page.json"],
       .jsonContent (.str "parsed")) := rfl

/-- Claim C7, amended: every output_format other than markdown — xml
included — is treated as json: the handler reads the JSON results file
(the readFile event on that path is in the trace) and on success returns its
parsed content; no invalid-format rejection exists in the handler. -/
theorem c7_other_format_treated_as_json (env : Env)
    (fname output_format jp : String) (v : JsonVal)
    (hof : output_format ≠ "markdown")
    (hext : strLower (splitext fname).2 ∈ allowedExts)
    (hsave : env.saveUpload = .ok ())
    (hmk : env.makedirs = .ok ())
    (hpp : env.processPageResult = .ok jp)
    (hx : env.pathExists jp = true)
    (hr : env.readJson jp = .ok v) :
    (process_file_endpoint env (some fname) output_format).2 = .jsonContent v ∧
      Event.readFile jp ∈ (process_file_endpoint env (some fname) output_format).1 := by
  constructor <;>
    simp [process_file_endpoint, runBody, saveStage, mkdirStage, processStage,
      readStage, hof, hext, hsave, hmk, hpp, hx, hr]

/-- Claim C7, witness for the amended theorem at a concrete input. -/
theorem c7_witness :
    (process_file_endpoint envOk (some "doc.png") "xml").2 =
        Response.jsonContent (JsonVal.str "parsed") ∧
      Event.readFile "results/req-1/recognition_json/page.json" ∈
        (process_file_endpoint envOk (some "doc.png") "xml").1 :=
  c7_other_format_treated_as_json envOk "doc.png" "xml"
    "results/req-1/recognition_json/page.json" (JsonVal.str "parsed")
    (by decide) (by decide) rfl rfl rfl rfl rfl

/-- Claim C8, confirmed: any exception of the body that is not an
HTTPException is caught by the outermost except clause and converted into
HTTPException 500 with the generic detail An unexpected error occurred
followed by the cause, so every execution of the handler produces a defined
response and no unclassified error propagates out of it. -/
theorem c8_unexpected_error_converted (env : Env) (filename : Option String)
    (output_format : String) (evs : List Event) (msg : String)
    (h : runBody env filename output_format = (evs, .error (.pyExc msg))) :
    process_file_endpoint env filename output_format =
      (evs, .httpError 500 ("An unexpected error occurred: " ++ msg)) := by
  simp [process_file_endpoint, h]

/-- Claim C8, witness: a request whose upload carries no filename makes
os.path.splitext raise a TypeError, which the outermost clause converts into
the generic HTTP 500. -/
theorem c8_witness :
    process_file_endpoint envOk none "json" =
      ([], .httpError 500 ("An unexpected error occurred: " ++ pyNoneTypeMsg)) :=
  c8_unexpected_error_converted envOk none "json" [] pyNoneTypeMsg rfl

/-- Claim C9, confirmed: two submissions with distinct request identifiers of
equal length (str of uuid.uuid4() always has 36 characters) have distinct
input-staging file paths, whatever the two file extensions are, and distinct
results directories. -/
theorem c9_distinct_workspaces (id1 id2 e1 e2 : String)
    (hne : id1 ≠ id2) (hlen : id1.length = id2.length) :
    upload_file_path id1 e1 ≠ upload_file_path id2 e2 ∧
      output_save_dir id1 ≠ output_save_dir id2 := by
  have hl : id1.data.length = id2.data.length := hlen
  constructor
  · intro h
    apply hne
    have h2 : (upload_file_path id1 e1).data = (upload_file_path id2 e2).data := by
      rw [h]
    simp only [upload_file_path, joinPath, TEMP_UPLOADS_DIR, data_append,
      List.append_assoc] at h2
    have h3 := List.append_cancel_left h2
    have h4 := List.append_cancel_left h3
    have h5 : id1.data = id2.data := (List.append_inj h4 hl).1
    exact congrArg String.mk h5
  · intro h
    apply hne
    have h2 : (output_save_dir id1).data = (output_save_dir id2).data := by
      rw [h]
    simp only [output_save_dir, joinPath, RESULTS_DIR, data_append,
      List.append_assoc] at h2
    have h3 := List.append_cancel_left h2
    have h4 := List.append_cancel_left h3
    exact congrArg String.mk h4

/-- Claim C9, witness at two concrete distinct 36-character identifiers with
differently-cased extensions. -/
theorem c9_witness :
    upload_file_path "11111111-1111-1111-1111-111111111111" ".png" ≠
        upload_file_path "22222222-2222-2222-2222-222222222222" ".PNG" ∧
      output_save_dir "11111111-1111-1111-1111-111111111111" ≠
        output_save_dir "22222222-2222-2222-2222-222222222222" :=
  c9_distinct_workspaces _ _ _ _ (by decide) (by decide)

/-- Claim C10, confirmed: a submission whose filename extension, lowercased,
is outside the accepted set is answered with HTTP 400 naming the extension,
with an empty operation trace — no file is written and no processing occurs —
while a submission whose lowercased extension is accepted, in any letter
case, passes the check: its first operation is the attempt to save the
upload. -/
theorem c10_extension_gate (env : Env) (fname output_format : String) :
    (strLower (splitext fname).2 ∉ allowedExts →
      process_file_endpoint env (some fname) output_format =
        ([], .httpError 400 (invalidTypeDetail (splitext fname).2))) ∧
    (strLower (splitext fname).2 ∈ allowedExts →
      (process_file_endpoint env (some fname) output_format).1.head? =
        some (.save (upload_file_path env.requestId (splitext fname).2))) := by
  constructor
  · intro h
    simp [process_file_endpoint, runBody, h]
  · intro h
    rw [trace_eq]
    unfold runBody
    simp [h, saveStage_head]

/-- Claim C10, witness: a .txt upload is rejected with HTTP 400 and an empty
trace, while a .PNG upload (uppercase) passes the check and is saved. -/
theorem c10_witness :
    (process_file_endpoint envOk (some "a.txt") "json" =
        ([], .httpError 400 (invalidTypeDetail ".txt"))) ∧
      ((process_file_endpoint envOk (some "b.PNG") "json").1.head? =
        some (.save (upload_file_path "req-1" ".PNG"))) :=
  ⟨(c10_extension_gate envOk "a.txt" "json").1 (by decide),
   (c10_extension_gate envOk "b.PNG" "json").2 (by decide)⟩

end DolphinAPI
